import Mathlib

/-
Shallow embedding of src/DocumentSummarizer.py.

Python strings are modelled as lists of characters (PyStr), the Streamlit
session state as an explicit SessionState record, the OpenAI chat-completion
call as an abstract function from a message list to a result, and each file
format parser as an abstract function from a format to an optional text.
Values of None in the Python code become Option.none; the st.error side
channel is reflected in explicit outcome values.  The analyze and ask
handlers additionally report, as plain data, how many backend calls were
made, which parsers were dispatched to, and the exact request sent, so that
the spec claims about those observables can be stated.
-/

/-- Python str, modelled as a list of characters. -/
abbrev PyStr := List Char

/-- Whitespace as recognised by Python str.strip: space, tab, newline,
carriage return, vertical tab, form feed. -/
def pyIsSpace (c : Char) : Bool :=
  c == ' ' || c == '\t' || c == '\n' || c == '\r' ||
    c == Char.ofNat 11 || c == Char.ofNat 12

/-- Python str.strip(): remove leading and trailing whitespace. -/
def strip (s : PyStr) : PyStr :=
  ((s.dropWhile pyIsSpace).reverse.dropWhile pyIsSpace).reverse

/-- One role/content entry of a chat-completion request or of the session
transcript (the dicts built at lines 117-118, 140-148, 264, 276). -/
structure ChatMessage where
  role : String
  content : PyStr
deriving Repr, DecidableEq

/-- The four parser families the dispatch at lines 75-82 can reach:
extract_text_from_pdf, extract_text_from_docx (used for both docx and doc),
extract_text_from_txt, extract_text_from_excel. -/
inductive FileFormat
  | pdf | docx | txt | excel
deriving Repr, DecidableEq

/-- The error shown by the final else branch of process_document
(line 84: Unsupported file format). -/
inductive ProcessError
  | unsupportedFormat
deriving Repr, DecidableEq

/-- Line 72: file.name.split(chr 46)[-1].lower(). -/
def fileExtension (name : PyStr) : PyStr :=
  ((name.splitOn '.').getLastD []).map Char.toLower

/-- The extension dispatch of process_document, lines 75-82. -/
def formatOfExtension (ext : PyStr) : Option FileFormat :=
  if ext = "pdf".data then some FileFormat.pdf
  else if ext = "docx".data ∨ ext = "doc".data then some FileFormat.docx
  else if ext = "txt".data then some FileFormat.txt
  else if ext = "xls".data ∨ ext = "xlsx".data then some FileFormat.excel
  else none

/-- The extensions that reach a parser (also the uploader whitelist at
line 181). -/
def supportedExtensions : List PyStr :=
  ["pdf".data, "doc".data, "docx".data, "txt".data, "xls".data, "xlsx".data]

/-- extract_text_from_pdf, lines 22-29, on a well-formed PDF: the pages list
holds each page.extract_text() result; the loop appends each page text plus
a newline to the accumulator, which starts empty. -/
def extract_text_from_pdf (pages : List PyStr) : PyStr :=
  pages.foldl (fun text page => text ++ page ++ "\n".data) []

/-- process_document, lines 67-89, for a non-None file.  The parser behaviour
is abstracted as parse : FileFormat → Option PyStr (None models the parser
raising, which the wrappers at lines 30-32 etc. turn into an error message
plus a None return).  The result carries, besides the returned value, the
list of parsers that were dispatched to and whether the unsupported-format
error was shown, so claims about those observables can be stated. -/
def process_document (parse : FileFormat → Option PyStr) (name : PyStr) :
    Option PyStr × List FileFormat × Option ProcessError :=
  match formatOfExtension (fileExtension name) with
  | some fmt => (parse fmt, [fmt], none)
  | none => (none, [], some ProcessError.unsupportedFormat)

/-- max_chars at line 97. -/
def summary_max_chars : Nat := 12000

/-- The marker appended at line 100 when the document was truncated. -/
def truncation_marker : PyStr := "\n\n[Document truncated for analysis...]".data

/-- truncated_content, lines 98-100: Python slice content[:12000], then the
marker is appended when the original was longer than 12000 characters. -/
def truncated_content (content : PyStr) : PyStr :=
  let t := content.take summary_max_chars
  if content.length > summary_max_chars then t ++ truncation_marker else t

/-- The fixed instruction text of the prompt f-string at lines 102-112, up to
and including the line "Document:" and its newline. -/
def summaryPromptPrefix : PyStr :=
  ("Analyze the following document and provide a detailed summary with:\n\n1. **Key Highlights**: List the main points, findings, and important information\n2. **Important Metrics**: Extract all numbers, percentages, statistics, financial figures, and quantitative data\n3. **Dates**: List all dates mentioned with their context\n\nFormat your response clearly with these three sections.\n\nDocument:\n").data

/-- The system message content at line 117. -/
def summarySystemMsg : PyStr :=
  ("You are a document analysis expert who extracts key information, metrics, and dates from documents.").data

/-- The full user prompt of get_document_summary: fixed prefix, then the
truncated document, then the closing newline of the f-string. -/
def summaryPrompt (content : PyStr) : PyStr :=
  summaryPromptPrefix ++ truncated_content content ++ "\n".data

/-- The messages list passed to the backend at lines 116-119. -/
def summary_request (content : PyStr) : List ChatMessage :=
  [⟨"system", summarySystemMsg⟩, ⟨"user", summaryPrompt content⟩]

/-- get_document_summary, lines 91-129: one backend call; on success the
completion text is returned, on any exception None is returned (after an
error message is shown). -/
def get_document_summary (backend : List ChatMessage → Except PyStr PyStr)
    (content : PyStr) : Option PyStr :=
  match backend (summary_request content) with
  | Except.ok s => some s
  | Except.error _ => none

/-- max_chars at line 137. -/
def chat_max_chars : Nat := 10000

/-- The fixed part of the chat system message at line 141, up to and
including the line "Document:" and its newline. -/
def chatSystemPrefix : PyStr :=
  ("You are a helpful assistant that answers questions about a document. Base your answers only on the document content provided.\n\nDocument:\n").data

/-- Python list slice l[-n:]: the last n elements (all of them when the list
is shorter than n). -/
def lastN (n : Nat) (l : List α) : List α := l.drop (l.length - n)

/-- The messages list built at lines 140-148: the system message with the
document truncated to 10000 characters, then chat_history[-8:] in order,
then the current question as a user message. -/
def chat_request (question document_content : PyStr)
    (chat_history : List ChatMessage) : List ChatMessage :=
  (⟨"system", chatSystemPrefix ++ document_content.take chat_max_chars⟩ ::
    lastN 8 chat_history) ++ [⟨"user", question⟩]

/-- chat_with_document, lines 131-161: one backend call; on success the
completion text is returned; on any exception the string
"Error: " ++ cause is returned as an ordinary value (lines 158-161). -/
def chat_with_document (backend : List ChatMessage → Except PyStr PyStr)
    (question document_content : PyStr)
    (chat_history : List ChatMessage) : PyStr :=
  match backend (chat_request question document_content chat_history) with
  | Except.ok ans => ans
  | Except.error e => "Error: ".data ++ e

/-- The Streamlit session state initialised at lines 13-20: messages (the
transcript), document_content, summary, file_processed. -/
structure SessionState where
  messages : List ChatMessage
  document_content : PyStr
  summary : Option PyStr
  file_processed : Bool
deriving Repr, DecidableEq

/-- The session state of a fresh session, lines 13-20. -/
def initialState : SessionState := ⟨[], [], none, false⟩

/-- Which branch of the analyze_button handler (lines 191-215) ran; each
non-success value is a distinct st.error message. -/
inductive AnalyzeOutcome
  | noFile | noApiKey | badApiKey | extractionFailed | summaryFailed | success
deriving Repr, DecidableEq

/-- Observable result of one analyze_button event: the session state after
the handler, the branch taken, how many backend chat-completion calls were
made, and which parsers process_document dispatched to. -/
structure AnalyzeResult where
  state : SessionState
  outcome : AnalyzeOutcome
  backendCalls : Nat
  parsersAttempted : List FileFormat
deriving Repr, DecidableEq

/-- The analyze_button handler, lines 191-215.  Validation order as in the
code: missing file, then empty key, then key not starting with sk-.  Then
process_document; its result must be non-None, non-empty and not
whitespace-only (line 201: content and len(content.strip()) greater than 0).
document_content is stored (line 202) BEFORE get_document_summary is called;
the summary value must then be truthy (line 206: if summary, false for both
None and the empty string) for summary, messages and file_processed to be
updated (lines 207-209); otherwise the Failed-to-generate-summary branch at
lines 212-213 updates nothing further. -/
def analyze (backend : List ChatMessage → Except PyStr PyStr)
    (parse : FileFormat → Option PyStr)
    (uploaded_file : Option PyStr) (api_key : PyStr)
    (s : SessionState) : AnalyzeResult :=
  match uploaded_file with
  | none => ⟨s, AnalyzeOutcome.noFile, 0, []⟩
  | some name =>
    if api_key = [] then ⟨s, AnalyzeOutcome.noApiKey, 0, []⟩
    else if "sk-".data.isPrefixOf api_key then
      match (process_document parse name).1 with
      | some content =>
        if content ≠ [] ∧ strip content ≠ [] then
          match get_document_summary backend content with
          | some summ =>
            if summ ≠ [] then
              ⟨⟨[], content, some summ, true⟩, AnalyzeOutcome.success, 1,
                (process_document parse name).2.1⟩
            else
              ⟨⟨s.messages, content, s.summary, s.file_processed⟩,
                AnalyzeOutcome.summaryFailed, 1, (process_document parse name).2.1⟩
          | none =>
            ⟨⟨s.messages, content, s.summary, s.file_processed⟩,
              AnalyzeOutcome.summaryFailed, 1, (process_document parse name).2.1⟩
        else ⟨s, AnalyzeOutcome.extractionFailed, 0, (process_document parse name).2.1⟩
      | none => ⟨s, AnalyzeOutcome.extractionFailed, 0, (process_document parse name).2.1⟩
    else ⟨s, AnalyzeOutcome.badApiKey, 0, []⟩

/-- Observable result of one chat_input event: the session state after the
handler, the request the backend received (none when the handler rejected
the turn for a missing key and made no call), and the answer value shown. -/
structure AskResult where
  state : SessionState
  request : Option (List ChatMessage)
  response : Option PyStr
deriving Repr, DecidableEq

/-- The chat_input handler, lines 259-277: reject on empty key; otherwise
append the user message to the transcript (line 264), call
chat_with_document with the transcript THAT ALREADY CONTAINS the new user
message (lines 268-273), then append the returned value as the assistant
message (line 276). -/
def ask_question (backend : List ChatMessage → Except PyStr PyStr)
    (api_key : PyStr) (prompt : PyStr) (s : SessionState) : AskResult :=
  if api_key = [] then ⟨s, none, none⟩
  else
    let withUser := s.messages ++ [⟨"user", prompt⟩]
    let response := chat_with_document backend prompt s.document_content withUser
    ⟨⟨withUser ++ [⟨"assistant", response⟩], s.document_content, s.summary,
        s.file_processed⟩,
      some (chat_request prompt s.document_content withUser), some response⟩

/-- A concrete transcript of 20 prior messages with pairwise distinct
contents, used to exercise the chat context window. -/
def sampleHistory : List ChatMessage :=
  (List.range 20).map (fun i => ⟨"user", [Char.ofNat (65 + i)]⟩)

/-! Helper lemmas -/

theorem analyze_valid_key_ne_nil (api_key : PyStr)
    (hk : "sk-".data.isPrefixOf api_key = true) : api_key ≠ [] := by
  intro h
  subst h
  exact absurd hk (by decide)

theorem formatOfExtension_eq_none (ext : PyStr) (h : ext ∉ supportedExtensions) :
    formatOfExtension ext = none := by
  simp only [supportedExtensions, List.mem_cons, List.not_mem_nil, or_false,
    not_or] at h
  obtain ⟨h1, h2, h3, h4, h5, h6⟩ := h
  have hb : ¬(ext = "docx".data ∨ ext = "doc".data) := by
    rintro (rfl | rfl)
    · exact h3 rfl
    · exact h2 rfl
  have he : ¬(ext = "xls".data ∨ ext = "xlsx".data) := by
    rintro (rfl | rfl)
    · exact h5 rfl
    · exact h6 rfl
  unfold formatOfExtension
  rw [if_neg h1, if_neg hb, if_neg h4, if_neg he]

theorem extract_text_from_pdf_foldl (pages : List PyStr) (acc : PyStr) :
    pages.foldl (fun text page => text ++ page ++ "\n".data) acc
      = acc ++ (pages.map (fun p => p ++ "\n".data)).flatten := by
  induction pages generalizing acc with
  | nil => simp
  | cons p ps ih =>
    rw [List.foldl_cons, ih]
    simp [List.append_assoc]

theorem analyze_success_eq (backend : List ChatMessage → Except PyStr PyStr)
    (parse : FileFormat → Option PyStr) (name api_key content v : PyStr)
    (s : SessionState)
    (hk : "sk-".data.isPrefixOf api_key = true)
    (hc : (process_document parse name).1 = some content)
    (hne : content ≠ [] ∧ strip content ≠ [])
    (hb : get_document_summary backend content = some v)
    (hv : v ≠ []) :
    analyze backend parse (some name) api_key s
      = ⟨⟨[], content, some v, true⟩, AnalyzeOutcome.success, 1,
          (process_document parse name).2.1⟩ := by
  have hk0 : api_key ≠ [] := analyze_valid_key_ne_nil api_key hk
  simp [analyze, hk0, hk, hc, hne.1, hne.2, hb, hv]

theorem analyze_summaryFailed_eq (backend : List ChatMessage → Except PyStr PyStr)
    (parse : FileFormat → Option PyStr) (name api_key content : PyStr)
    (s : SessionState)
    (hk : "sk-".data.isPrefixOf api_key = true)
    (hc : (process_document parse name).1 = some content)
    (hne : content ≠ [] ∧ strip content ≠ [])
    (hb : get_document_summary backend content = none) :
    analyze backend parse (some name) api_key s
      = ⟨⟨s.messages, content, s.summary, s.file_processed⟩,
          AnalyzeOutcome.summaryFailed, 1, (process_document parse name).2.1⟩ := by
  have hk0 : api_key ≠ [] := analyze_valid_key_ne_nil api_key hk
  simp [analyze, hk0, hk, hc, hne.1, hne.2, hb]

/-! Claim theorems -/

/-- Claim C2: for text longer than 12000 characters the document portion of
the summarization request is exactly the first 12000 characters followed by
the truncation marker; for text of at most 12000 characters it is the text
unchanged with no marker.  The request is the two-message list sent to the
backend, whose user message is the fixed prompt prefix, then the document
portion, then the closing newline. -/
theorem C2_theorem (content : PyStr) :
    summary_request content =
      [⟨"system", summarySystemMsg⟩,
       ⟨"user", summaryPromptPrefix ++
          (if content.length > 12000 then content.take 12000 ++ truncation_marker
           else content) ++ "\n".data⟩] := by
  simp only [summary_request, summaryPrompt, truncated_content, summary_max_chars]
  split_ifs with h
  · rfl
  · rw [List.take_of_length_le (Nat.le_of_not_lt h)]

/-- Claim C4: an analyze invocation whose credential string is empty or does
not start with sk- is rejected with a validation error branch; no backend
call is made, no parser is dispatched to, and the session state is
unchanged. -/
theorem C4_theorem (backend : List ChatMessage → Except PyStr PyStr)
    (parse : FileFormat → Option PyStr) (uploaded_file : Option PyStr)
    (api_key : PyStr) (s : SessionState)
    (h : api_key = [] ∨ "sk-".data.isPrefixOf api_key = false) :
    (analyze backend parse uploaded_file api_key s).state = s ∧
    (analyze backend parse uploaded_file api_key s).backendCalls = 0 ∧
    (analyze backend parse uploaded_file api_key s).parsersAttempted = [] ∧
    ((analyze backend parse uploaded_file api_key s).outcome = AnalyzeOutcome.noFile ∨
     (analyze backend parse uploaded_file api_key s).outcome = AnalyzeOutcome.noApiKey ∨
     (analyze backend parse uploaded_file api_key s).outcome = AnalyzeOutcome.badApiKey) := by
  cases uploaded_file with
  | none => simp [analyze]
  | some name =>
    rcases h with h | h
    · simp [analyze, h]
    · by_cases hk : api_key = []
      · simp [analyze, hk]
      · simp [analyze, hk, h]

/-- Witness for C4 at a concrete malformed key. -/
theorem C4_witness :
    (analyze (fun _ => Except.ok "v".data) (fun _ => some "x".data)
        (some "f.txt".data) "abc".data initialState).state = initialState ∧
    (analyze (fun _ => Except.ok "v".data) (fun _ => some "x".data)
        (some "f.txt".data) "abc".data initialState).backendCalls = 0 ∧
    (analyze (fun _ => Except.ok "v".data) (fun _ => some "x".data)
        (some "f.txt".data) "abc".data initialState).parsersAttempted = [] ∧
    ((analyze (fun _ => Except.ok "v".data) (fun _ => some "x".data)
        (some "f.txt".data) "abc".data initialState).outcome = AnalyzeOutcome.noFile ∨
     (analyze (fun _ => Except.ok "v".data) (fun _ => some "x".data)
        (some "f.txt".data) "abc".data initialState).outcome = AnalyzeOutcome.noApiKey ∨
     (analyze (fun _ => Except.ok "v".data) (fun _ => some "x".data)
        (some "f.txt".data) "abc".data initialState).outcome = AnalyzeOutcome.badApiKey) :=
  C4_theorem (fun _ => Except.ok "v".data) (fun _ => some "x".data)
    (some "f.txt".data) "abc".data initialState (Or.inr (by decide))

/-- Claim C7: an uploaded file whose lower-cased extension is not one of
pdf, doc, docx, txt, xls, xlsx is rejected with the unsupported-format
error, no parser is dispatched to, and the dispatch depends only on the
lower-cased file extension. -/
theorem C7_theorem (parse : FileFormat → Option PyStr) (name : PyStr)
    (h : fileExtension name ∉ supportedExtensions) :
    process_document parse name = (none, [], some ProcessError.unsupportedFormat) ∧
    ∀ name2 : PyStr, fileExtension name2 = fileExtension name →
      process_document parse name2 = process_document parse name := by
  constructor
  · unfold process_document
    rw [formatOfExtension_eq_none _ h]
  · intro name2 h2
    unfold process_document
    rw [h2]

/-- Witness for C7 at the concrete unsupported file data.csv. -/
theorem C7_witness :
    fileExtension "data.csv".data ∉ supportedExtensions ∧
    process_document (fun _ => some "x".data) "data.csv".data
      = (none, [], some ProcessError.unsupportedFormat) :=
  ⟨by decide,
   (C7_theorem (fun _ => some "x".data) "data.csv".data (by decide)).1⟩

/-- Claim C8: PDF extraction returns the concatenation over pages, in page
order, of each page text followed by a newline; in particular for a 3-page
PDF the result is page1, newline, page2, newline, page3, newline. -/
theorem C8_theorem :
    (∀ pages : List PyStr,
        extract_text_from_pdf pages = (pages.map (fun p => p ++ "\n".data)).flatten) ∧
    (∀ p1 p2 p3 : PyStr,
        extract_text_from_pdf [p1, p2, p3]
          = p1 ++ "\n".data ++ (p2 ++ "\n".data) ++ (p3 ++ "\n".data)) := by
  constructor
  · intro pages
    unfold extract_text_from_pdf
    simpa using extract_text_from_pdf_foldl pages []
  · intro p1 p2 p3
    simp [extract_text_from_pdf, List.append_assoc]

/-- Claim C1 as stated is false: at a concrete session holding a previously
analyzed document, analyzing a new file whose summarization fails leaves the
stored document text CHANGED (it already holds the newly extracted text), so
the observable session state is not unchanged. -/
theorem C1_counterexample :
    (analyze (fun _ => Except.error "boom".data) (fun _ => some "new".data)
        (some "f.txt".data) "sk-x".data
        ⟨[⟨"user", "hi".data⟩], "old".data, some "os".data, true⟩).outcome
      = AnalyzeOutcome.summaryFailed ∧
    (analyze (fun _ => Except.error "boom".data) (fun _ => some "new".data)
        (some "f.txt".data) "sk-x".data
        ⟨[⟨"user", "hi".data⟩], "old".data, some "os".data, true⟩).state.document_content
      ≠ "old".data :=
  ⟨by decide, by decide⟩

/-- Claim C1 (amended): if analyze fails at the summarization step after a
successful extraction, the stored summary and the transcript are unchanged,
but the stored document text has already been replaced by the newly
extracted text (the assignment at line 202 precedes the backend call), so
the transcript may reference the extracted text of a different document
until a later successful analyze. -/
theorem C1_theorem (backend : List ChatMessage → Except PyStr PyStr)
    (parse : FileFormat → Option PyStr) (name api_key content : PyStr)
    (s : SessionState)
    (hk : "sk-".data.isPrefixOf api_key = true)
    (hc : (process_document parse name).1 = some content)
    (hne : content ≠ [] ∧ strip content ≠ [])
    (hb : get_document_summary backend content = none) :
    (analyze backend parse (some name) api_key s).outcome
      = AnalyzeOutcome.summaryFailed ∧
    (analyze backend parse (some name) api_key s).state.summary = s.summary ∧
    (analyze backend parse (some name) api_key s).state.messages = s.messages ∧
    (analyze backend parse (some name) api_key s).state.document_content = content := by
  rw [analyze_summaryFailed_eq backend parse name api_key content s hk hc hne hb]
  exact ⟨rfl, rfl, rfl, rfl⟩

/-- Witness for C1 (amended) at a concrete failing backend. -/
theorem C1_witness :
    (analyze (fun _ => Except.error "down".data) (fun _ => some "text".data)
        (some "g.txt".data) "sk-y".data
        ⟨[⟨"user", "ho".data⟩], "prev".data, some "ps".data, true⟩).outcome
      = AnalyzeOutcome.summaryFailed ∧
    (analyze (fun _ => Except.error "down".data) (fun _ => some "text".data)
        (some "g.txt".data) "sk-y".data
        ⟨[⟨"user", "ho".data⟩], "prev".data, some "ps".data, true⟩).state.summary
      = some "ps".data ∧
    (analyze (fun _ => Except.error "down".data) (fun _ => some "text".data)
        (some "g.txt".data) "sk-y".data
        ⟨[⟨"user", "ho".data⟩], "prev".data, some "ps".data, true⟩).state.messages
      = [⟨"user", "ho".data⟩] ∧
    (analyze (fun _ => Except.error "down".data) (fun _ => some "text".data)
        (some "g.txt".data) "sk-y".data
        ⟨[⟨"user", "ho".data⟩], "prev".data, some "ps".data, true⟩).state.document_content
      = "text".data :=
  C1_theorem (fun _ => Except.error "down".data) (fun _ => some "text".data)
    "g.txt".data "sk-y".data "text".data
    ⟨[⟨"user", "ho".data⟩], "prev".data, some "ps".data, true⟩
    (by decide) (by decide) ⟨by decide, by decide⟩ rfl

/-- Claim C5 as stated is false: at a concrete session holding a previously
analyzed document, analyzing a file whose extraction fails leaves the session
still holding the prior document text, not the Empty-equivalent state with no
document. -/
theorem C5_counterexample :
    (analyze (fun _ => Except.ok "v".data) (fun _ => none)
        (some "f.txt".data) "sk-x".data
        ⟨[], "old".data, some "os".data, true⟩).outcome
      = AnalyzeOutcome.extractionFailed ∧
    (analyze (fun _ => Except.ok "v".data) (fun _ => none)
        (some "f.txt".data) "sk-x".data
        ⟨[], "old".data, some "os".data, true⟩).state.document_content ≠ [] :=
  ⟨by decide, by decide⟩

/-- Claim C5 (amended): when extraction fails, the extraction error is
surfaced, no backend call is made and the session state is left exactly as
it was; in particular a session that held no document text still holds none
(the Empty state is preserved), but a previously loaded document is retained
rather than cleared. -/
theorem C5_theorem (backend : List ChatMessage → Except PyStr PyStr)
    (parse : FileFormat → Option PyStr) (name api_key : PyStr)
    (s : SessionState)
    (hk : "sk-".data.isPrefixOf api_key = true)
    (hc : (process_document parse name).1 = none) :
    (analyze backend parse (some name) api_key s).state = s ∧
    (analyze backend parse (some name) api_key s).outcome
      = AnalyzeOutcome.extractionFailed ∧
    (analyze backend parse (some name) api_key s).backendCalls = 0 ∧
    (s.document_content = [] →
      (analyze backend parse (some name) api_key s).state.document_content = []) := by
  have hk0 : api_key ≠ [] := analyze_valid_key_ne_nil api_key hk
  simp [analyze, hk0, hk, hc]

/-- Witness for C5 (amended) at a concrete failing parser from the fresh
session. -/
theorem C5_witness :
    (analyze (fun _ => Except.ok "v".data) (fun _ => none)
        (some "h.pdf".data) "sk-z".data initialState).state = initialState ∧
    (analyze (fun _ => Except.ok "v".data) (fun _ => none)
        (some "h.pdf".data) "sk-z".data initialState).outcome
      = AnalyzeOutcome.extractionFailed ∧
    (analyze (fun _ => Except.ok "v".data) (fun _ => none)
        (some "h.pdf".data) "sk-z".data initialState).backendCalls = 0 ∧
    (initialState.document_content = [] →
      (analyze (fun _ => Except.ok "v".data) (fun _ => none)
          (some "h.pdf".data) "sk-z".data initialState).state.document_content = []) :=
  C5_theorem (fun _ => Except.ok "v".data) (fun _ => none)
    "h.pdf".data "sk-z".data initialState (by decide) (by decide)

/-- Claim C9 as stated is false: with the empty string as the fixed backend
value, line 206 (if summary) is falsy, so both calls take the
Failed-to-generate-summary branch; the first call already ends with outcome
summaryFailed, and even after two calls the session is not chat-enabled. -/
theorem C9_counterexample :
    (analyze (fun _ => Except.ok []) (fun _ => some "text".data)
        (some "f.txt".data) "sk-x".data initialState).outcome
      = AnalyzeOutcome.summaryFailed ∧
    (analyze (fun _ => Except.ok []) (fun _ => some "text".data)
        (some "f.txt".data) "sk-x".data
        (analyze (fun _ => Except.ok []) (fun _ => some "text".data)
          (some "f.txt".data) "sk-x".data initialState).state).state.file_processed
      = false :=
  ⟨by decide, by decide⟩

/-- Claim C9 (amended): with a backend returning a fixed NON-EMPTY value, a
second analyze of the same document and credentials yields exactly the
result of the first; both calls store the same summary, clear the
transcript, and end chat-enabled.  (With the empty string as fixed value,
line 206 routes both calls to the failed-summary branch instead.) -/
theorem C9_theorem (parse : FileFormat → Option PyStr)
    (name api_key content v : PyStr) (s : SessionState)
    (hk : "sk-".data.isPrefixOf api_key = true)
    (hc : (process_document parse name).1 = some content)
    (hne : content ≠ [] ∧ strip content ≠ [])
    (hv : v ≠ []) :
    analyze (fun _ => Except.ok v) parse (some name) api_key
        (analyze (fun _ => Except.ok v) parse (some name) api_key s).state
      = analyze (fun _ => Except.ok v) parse (some name) api_key s ∧
    (analyze (fun _ => Except.ok v) parse (some name) api_key s).outcome
      = AnalyzeOutcome.success ∧
    (analyze (fun _ => Except.ok v) parse (some name) api_key s).state.summary
      = some v ∧
    (analyze (fun _ => Except.ok v) parse (some name) api_key s).state.messages
      = [] ∧
    (analyze (fun _ => Except.ok v) parse (some name) api_key s).state.file_processed
      = true := by
  have hb : get_document_summary (fun _ => Except.ok v) content = some v := rfl
  have h1 := analyze_success_eq (fun _ => Except.ok v) parse name api_key content v s
    hk hc hne hb hv
  have h2 := analyze_success_eq (fun _ => Except.ok v) parse name api_key content v
    ⟨[], content, some v, true⟩ hk hc hne hb hv
  rw [h1]
  exact ⟨h2, rfl, rfl, rfl, rfl⟩

/-- Witness for C9 (amended) at a concrete document and non-empty fixed
backend value. -/
theorem C9_witness :
    analyze (fun _ => Except.ok "SUM".data) (fun _ => some "text".data)
        (some "f.txt".data) "sk-x".data
        (analyze (fun _ => Except.ok "SUM".data) (fun _ => some "text".data)
          (some "f.txt".data) "sk-x".data initialState).state
      = analyze (fun _ => Except.ok "SUM".data) (fun _ => some "text".data)
          (some "f.txt".data) "sk-x".data initialState ∧
    (analyze (fun _ => Except.ok "SUM".data) (fun _ => some "text".data)
        (some "f.txt".data) "sk-x".data initialState).outcome
      = AnalyzeOutcome.success ∧
    (analyze (fun _ => Except.ok "SUM".data) (fun _ => some "text".data)
        (some "f.txt".data) "sk-x".data initialState).state.summary
      = some "SUM".data ∧
    (analyze (fun _ => Except.ok "SUM".data) (fun _ => some "text".data)
        (some "f.txt".data) "sk-x".data initialState).state.messages = [] ∧
    (analyze (fun _ => Except.ok "SUM".data) (fun _ => some "text".data)
        (some "f.txt".data) "sk-x".data initialState).state.file_processed = true :=
  C9_theorem (fun _ => some "text".data) "f.txt".data "sk-x".data "text".data
    "SUM".data initialState (by decide) (by decide) ⟨by decide, by decide⟩
    (by decide)

/-- Claim C10: when extraction returns text that is empty or whitespace-only,
analyze treats it as an extraction failure: the extraction error is reported,
no backend summarization call is made, and the stored document text, summary
and transcript are unchanged. -/
theorem C10_theorem (backend : List ChatMessage → Except PyStr PyStr)
    (parse : FileFormat → Option PyStr) (name api_key content : PyStr)
    (s : SessionState)
    (hk : "sk-".data.isPrefixOf api_key = true)
    (hc : (process_document parse name).1 = some content)
    (hws : strip content = []) :
    (analyze backend parse (some name) api_key s).state = s ∧
    (analyze backend parse (some name) api_key s).outcome
      = AnalyzeOutcome.extractionFailed ∧
    (analyze backend parse (some name) api_key s).backendCalls = 0 := by
  have hk0 : api_key ≠ [] := analyze_valid_key_ne_nil api_key hk
  have hcond : ¬(content ≠ [] ∧ strip content ≠ []) := by
    rintro ⟨-, h2⟩
    exact h2 hws
  simp [analyze, hk0, hk, hc, hcond]

/-- Witness for C10 at a concrete whitespace-only extraction result. -/
theorem C10_witness :
    (analyze (fun _ => Except.ok "v".data) (fun _ => some "  \n ".data)
        (some "w.txt".data) "sk-w".data initialState).state = initialState ∧
    (analyze (fun _ => Except.ok "v".data) (fun _ => some "  \n ".data)
        (some "w.txt".data) "sk-w".data initialState).outcome
      = AnalyzeOutcome.extractionFailed ∧
    (analyze (fun _ => Except.ok "v".data) (fun _ => some "  \n ".data)
        (some "w.txt".data) "sk-w".data initialState).backendCalls = 0 :=
  C10_theorem (fun _ => Except.ok "v".data) (fun _ => some "  \n ".data)
    "w.txt".data "sk-w".data "  \n ".data initialState
    (by decide) (by decide) (by decide)

/-- Claim C3 as stated is false: at a concrete transcript of 20 prior
messages, the request the backend receives during the turn is NOT the system
message followed by the last 8 prior entries and then the question, because
the handler appends the question to the transcript before passing it as
history. -/
theorem C3_counterexample :
    (ask_question (fun _ => Except.ok "A".data) "sk-x".data "Q".data
        ⟨sampleHistory, "doc".data, some "s".data, true⟩).request
      ≠ some (⟨"system", chatSystemPrefix ++ "doc".data⟩ ::
          (lastN 8 sampleHistory ++ [⟨"user", "Q".data⟩])) := by
  decide

/-- Claim C3 (amended): in an AskQuestion turn starting from a transcript of
20 prior messages, the conversation-context portion of the backend request
is the last 7 prior transcript entries, role/content pairing preserved and
in original order, followed by the current question twice: the handler
appends the question to the transcript before passing it as history, so the
8-entry history tail already ends with the question, and the question is
then appended once more as the final user message. -/
theorem C3_theorem (backend : List ChatMessage → Except PyStr PyStr)
    (api_key q : PyStr) (s : SessionState)
    (hk : api_key ≠ []) (hl : s.messages.length = 20) :
    (ask_question backend api_key q s).request
      = some (⟨"system", chatSystemPrefix ++ s.document_content.take chat_max_chars⟩ ::
          (s.messages.drop 13 ++ [⟨"user", q⟩, ⟨"user", q⟩])) := by
  have hdrop : lastN 8 (s.messages ++ [(⟨"user", q⟩ : ChatMessage)])
      = s.messages.drop 13 ++ [⟨"user", q⟩] := by
    unfold lastN
    have h13 : (s.messages ++ [(⟨"user", q⟩ : ChatMessage)]).length - 8 = 13 := by
      simp [List.length_append, hl]
    rw [h13, List.drop_append_of_le_length (by rw [hl]; decide)]
  simp [ask_question, chat_request, hk, hdrop, List.append_assoc]

/-- Witness for C3 (amended) at the concrete 20-message transcript. -/
theorem C3_witness :
    (ask_question (fun _ => Except.ok "A".data) "sk-x".data "Q".data
        ⟨sampleHistory, "doc".data, some "s".data, true⟩).request
      = some (⟨"system", chatSystemPrefix ++ "doc".data.take chat_max_chars⟩ ::
          (sampleHistory.drop 13 ++ [⟨"user", "Q".data⟩, ⟨"user", "Q".data⟩])) :=
  C3_theorem (fun _ => Except.ok "A".data) "sk-x".data "Q".data
    ⟨sampleHistory, "doc".data, some "s".data, true⟩ (by decide) (by decide)

/-- Claim C6: when the backend call of an AskQuestion turn in the
chat-enabled state fails, the human-readable message (Error: cause) is
returned as the ordinary answer value, the turn does not abort, and the
transcript grows by exactly the appended user message followed by the
assistant reply carrying that message. -/
theorem C6_theorem (backend : List ChatMessage → Except PyStr PyStr)
    (api_key q e : PyStr) (s : SessionState)
    (hready : s.file_processed = true)
    (hk : api_key ≠ [])
    (hb : backend (chat_request q s.document_content
            (s.messages ++ [⟨"user", q⟩])) = Except.error e) :
    (ask_question backend api_key q s).response = some ("Error: ".data ++ e) ∧
    (ask_question backend api_key q s).state.messages
      = s.messages ++ [⟨"user", q⟩, ⟨"assistant", "Error: ".data ++ e⟩] ∧
    (ask_question backend api_key q s).state.messages.length
      = s.messages.length + 2 := by
  have _ := hready
  simp [ask_question, chat_with_document, hk, hb, List.append_assoc]

/-- Witness for C6 at a concrete failing backend. -/
theorem C6_witness :
    (ask_question (fun _ => Except.error "rate limit".data) "sk-x".data "Q".data
        ⟨[⟨"user", "a".data⟩, ⟨"assistant", "b".data⟩], "doc".data,
          some "s".data, true⟩).response
      = some ("Error: ".data ++ "rate limit".data) ∧
    (ask_question (fun _ => Except.error "rate limit".data) "sk-x".data "Q".data
        ⟨[⟨"user", "a".data⟩, ⟨"assistant", "b".data⟩], "doc".data,
          some "s".data, true⟩).state.messages
      = [⟨"user", "a".data⟩, ⟨"assistant", "b".data⟩] ++
          [⟨"user", "Q".data⟩, ⟨"assistant", "Error: ".data ++ "rate limit".data⟩] ∧
    (ask_question (fun _ => Except.error "rate limit".data) "sk-x".data "Q".data
        ⟨[⟨"user", "a".data⟩, ⟨"assistant", "b".data⟩], "doc".data,
          some "s".data, true⟩).state.messages.length
      = [⟨"user", "a".data⟩, (⟨"assistant", "b".data⟩ : ChatMessage)].length + 2 :=
  C6_theorem (fun _ => Except.error "rate limit".data) "sk-x".data "Q".data
    "rate limit".data
    ⟨[⟨"user", "a".data⟩, ⟨"assistant", "b".data⟩], "doc".data, some "s".data, true⟩
    rfl (by decide) rfl
